import Mathlib

/-
  Verification development for the Merry-Christmas WebGL tree.

  Shallow embedding of:
  * the global phase state machine (`triggerBlooming` / `triggerCollapsing`
    with their scheduled completion timeouts),
  * the ripple force field (`calculateRippleForce`),
  * the blooming / collapsing particle interpolation,
  * the hand gesture classifier (`isFingerOpen`, `detectGesture`,
    `detectPalmSwipe`, `detectHands`),
  * the photo carousel (`rotateCarousel`) and the scene-level effects of
    `triggerCollapsing`.
-/

namespace Xmas

/-! ## Phase state machine

The store holds `phase ∈ {tree, blooming, nebula, collapsing}`.
`triggerBlooming` is guarded by `phase === 'tree'`; it sets `blooming` and
schedules a `setTimeout` that later sets `nebula`.  `triggerCollapsing` is
guarded by `phase === 'nebula'`; it sets `collapsing` and schedules a
timeout that later sets `tree`.  We model the scheduled timeouts as a FIFO
list of pending callbacks. -/

inductive Phase
  | tree
  | blooming
  | nebula
  | collapsing
deriving DecidableEq, Repr

inductive TimeoutKind
  | bloomDone
  | collapseDone
deriving DecidableEq, Repr

structure PhaseState where
  phase : Phase
  pending : List TimeoutKind
deriving DecidableEq, Repr

/-- `triggerBlooming` (part_005 lines 1164-1253): no-op unless the phase is
`tree`; otherwise sets `blooming` and schedules the 2500 ms timeout that sets
`nebula`. -/
def triggerBlooming (s : PhaseState) : PhaseState :=
  if s.phase = Phase.tree then
    { phase := Phase.blooming, pending := s.pending ++ [TimeoutKind.bloomDone] }
  else s

/-- `triggerCollapsing` (part_005 lines 1255-1347): no-op unless the phase is
`nebula`; otherwise sets `collapsing` and schedules the 2500 ms timeout that
sets `tree`. -/
def triggerCollapsing (s : PhaseState) : PhaseState :=
  if s.phase = Phase.nebula then
    { phase := Phase.collapsing, pending := s.pending ++ [TimeoutKind.collapseDone] }
  else s

/-- Firing the oldest scheduled timeout.  The `setTimeout` callbacks in the
source set the phase unconditionally (`store.setState({ phase: 'nebula' })`,
resp. `'tree'`). -/
def fireTimeout (s : PhaseState) : PhaseState :=
  match s.pending with
  | [] => s
  | TimeoutKind.bloomDone :: rest => { phase := Phase.nebula, pending := rest }
  | TimeoutKind.collapseDone :: rest => { phase := Phase.tree, pending := rest }

inductive PhaseEv
  | bloomTrig
  | collapseTrig
  | timeoutFire
deriving DecidableEq, Repr

def phaseStep (s : PhaseState) : PhaseEv → PhaseState
  | PhaseEv.bloomTrig => triggerBlooming s
  | PhaseEv.collapseTrig => triggerCollapsing s
  | PhaseEv.timeoutFire => fireTimeout s

/-- Phase trace of a run: the sequence of phases visited while consuming the
event list. -/
def phaseTrace (s : PhaseState) : List PhaseEv → List Phase
  | [] => [s.phase]
  | e :: es => s.phase :: phaseTrace (phaseStep s e) es

/-- Number of `blooming → nebula` transitions along a phase trace. -/
def countBloomToNebula : List Phase → ℕ
  | p :: q :: rest =>
      (if p = Phase.blooming ∧ q = Phase.nebula then 1 else 0) +
        countBloomToNebula (q :: rest)
  | _ => 0

/-- Reachable-state invariant: a transient phase has exactly its own
completion timeout in flight, a stable phase has none. -/
def wfState (s : PhaseState) : Bool :=
  match s.phase, s.pending with
  | Phase.tree, [] => true
  | Phase.nebula, [] => true
  | Phase.blooming, [TimeoutKind.bloomDone] => true
  | Phase.collapsing, [TimeoutKind.collapseDone] => true
  | _, _ => false

/-- An edge is legal when the phase is unchanged or moves one step along the
cycle Tree→Blooming→Nebula→Collapsing→Tree. -/
def allowedEdge (p q : Phase) : Bool :=
  p == q ||
    (p == Phase.tree && q == Phase.blooming) ||
    (p == Phase.blooming && q == Phase.nebula) ||
    (p == Phase.nebula && q == Phase.collapsing) ||
    (p == Phase.collapsing && q == Phase.tree)

/-! ## Blooming / collapsing interpolation (particle positions)

The particle buffers are flat arrays handled componentwise; we model one
coordinate.  Blooming writes
`positions[i] = ox + (exploded[i] - ox) * progress`; collapsing writes
`positions[i] = exploded[i] + (original[i] - exploded[i]) * progress`,
both reading from the stored `originalPositions` / `explodedPositions`
arrays, never from the current value. -/

structure Particle where
  origin : ℚ
  current : ℚ
deriving DecidableEq, Repr

/-- One coordinate of the blooming tween's `onUpdate` body at a given
progress. -/
def bloomStep (exploded : ℚ) (p : Particle) (progress : ℚ) : Particle :=
  { p with current := p.origin + (exploded - p.origin) * progress }

/-- One coordinate of the collapsing tween's `onUpdate` body at a given
progress. -/
def collapseStep (exploded : ℚ) (p : Particle) (progress : ℚ) : Particle :=
  { p with current := exploded + (p.origin - exploded) * progress }

/-- Full cycle Tree → Blooming (run to completion, progress 1) → Nebula →
Collapsing (run to completion, progress 1) → Tree, for one particle
coordinate. -/
def fullCycle (exploded : ℚ) (p : Particle) : Particle :=
  collapseStep exploded (bloomStep exploded p 1) 1

/-! ## Ripple force field -/

structure Vec3 where
  x : ℝ
  y : ℝ
  z : ℝ

/-- Euclidean distance computed as in the source:
`Math.sqrt(dx*dx + dy*dy + dz*dz)`. -/
noncomputable def dist3 (position mousePos : Vec3) : ℝ :=
  Real.sqrt ((position.x - mousePos.x) * (position.x - mousePos.x) +
    (position.y - mousePos.y) * (position.y - mousePos.y) +
    (position.z - mousePos.z) * (position.z - mousePos.z))

/-- `calculateRippleForce` (part_005 lines 150-162). -/
noncomputable def calculateRippleForce (position mousePos : Vec3)
    (maxDistance forceMultiplier : ℝ) : Vec3 :=
  let dx := position.x - mousePos.x
  let dy := position.y - mousePos.y
  let dz := position.z - mousePos.z
  let dist := dist3 position mousePos
  if dist < maxDistance then
    let force := (maxDistance - dist) * forceMultiplier
    ⟨dx * force, dy * force, dz * force⟩
  else
    ⟨0, 0, 0⟩

def sub3 (a b : Vec3) : Vec3 := ⟨a.x - b.x, a.y - b.y, a.z - b.z⟩

noncomputable def dot3 (a b : Vec3) : ℝ := a.x * b.x + a.y * b.y + a.z * b.z

/-- Squared magnitude of a vector. -/
noncomputable def sqMag (v : Vec3) : ℝ := dot3 v v

/-! ## Hand gesture classifier (part_004)

A landmark sample is an indexed family of 2-D points `(x, y)`; only the
`x`/`y` entries of the 21 landmarks are read by the classifier.  Times are
`Date.now()` milliseconds, modelled as integers. -/

abbrev Landmarks := ℕ → ℚ × ℚ

def WRIST : ℕ := 0

def THUMB_CMC : ℕ := 1

def THUMB_MCP : ℕ := 2

def THUMB_IP : ℕ := 3

def THUMB_TIP : ℕ := 4

def INDEX_FINGER_MCP : ℕ := 5

def INDEX_FINGER_PIP : ℕ := 6

def INDEX_FINGER_DIP : ℕ := 7

def INDEX_FINGER_TIP : ℕ := 8

def MIDDLE_FINGER_MCP : ℕ := 9

def MIDDLE_FINGER_PIP : ℕ := 10

def MIDDLE_FINGER_DIP : ℕ := 11

def MIDDLE_FINGER_TIP : ℕ := 12

def RING_FINGER_MCP : ℕ := 13

def RING_FINGER_PIP : ℕ := 14

def RING_FINGER_DIP : ℕ := 15

def RING_FINGER_TIP : ℕ := 16

def PINKY_MCP : ℕ := 17

def PINKY_PIP : ℕ := 18

def PINKY_DIP : ℕ := 19

def PINKY_TIP : ℕ := 20

def GESTURE_DETECTION_INTERVAL : ℤ := 100

def swipeThreshold : ℚ := 50

def palmSwipeTimeout : ℤ := 300

/-- `isFingerOpen` (part_004 lines 383-397): destructures
`[mcp, pip, dip, tip]`; for the thumb (first index `THUMB_CMC`) compares the
x coordinates `tipX > mcpX`, otherwise compares the y coordinates
`tipY < mcpY`. -/
def isFingerOpen (landmarks : Landmarks) (fingerIndices : List ℕ) : Bool :=
  match fingerIndices with
  | [mcp, _pip, _dip, tip] =>
      if mcp = THUMB_CMC then
        decide ((landmarks tip).1 > (landmarks mcp).1)
      else
        decide ((landmarks tip).2 < (landmarks mcp).2)
  | _ => false

structure Fingers where
  thumb : Bool
  index : Bool
  middle : Bool
  ring : Bool
  pinky : Bool
deriving DecidableEq, Repr

/-- The `fingers` object computed at the top of `detectGesture`
(part_004 lines 262-268). -/
def fingerStates (landmarks : Landmarks) : Fingers :=
  { thumb := isFingerOpen landmarks [THUMB_CMC, THUMB_MCP, THUMB_IP, THUMB_TIP]
    index := isFingerOpen landmarks
      [INDEX_FINGER_MCP, INDEX_FINGER_PIP, INDEX_FINGER_DIP, INDEX_FINGER_TIP]
    middle := isFingerOpen landmarks
      [MIDDLE_FINGER_MCP, MIDDLE_FINGER_PIP, MIDDLE_FINGER_DIP, MIDDLE_FINGER_TIP]
    ring := isFingerOpen landmarks
      [RING_FINGER_MCP, RING_FINGER_PIP, RING_FINGER_DIP, RING_FINGER_TIP]
    pinky := isFingerOpen landmarks [PINKY_MCP, PINKY_PIP, PINKY_DIP, PINKY_TIP] }

/-- The if/else cascade of `detectGesture` (part_004 lines 270-303) as a
function of the five finger flags, returning the label it assigns. -/
def gestureFromFingers (f : Fingers) : String :=
  if !f.thumb && !f.index && !f.middle && !f.ring && !f.pinky then "fist"
  else if f.thumb && f.index && f.middle && f.ring && f.pinky then "open_palm"
  else if f.thumb && !f.index && !f.middle && !f.ring && !f.pinky then "thumbs_up"
  else if !f.thumb && f.index && f.middle && !f.ring && !f.pinky then "victory"
  else if !f.thumb && f.index && !f.middle && !f.ring && !f.pinky then "point"
  else "none"

/-- The label `detectGesture` computes for a landmark sample. -/
def classifyGesture (landmarks : Landmarks) : String :=
  gestureFromFingers (fingerStates landmarks)

/-- Mutable classifier state (the module-level variables of part_004). -/
structure GestureState where
  currentGesture : String
  previousGesture : String
  lastGestureTime : ℤ
  lastPalmPosition : Option (ℚ × ℚ)
  lastSwipeTime : ℤ
deriving DecidableEq, Repr

/-- Initial values of the module-level variables. -/
def initialGestureState : GestureState :=
  { currentGesture := "none"
    previousGesture := "none"
    lastGestureTime := 0
    lastPalmPosition := none
    lastSwipeTime := 0 }

/-- Events dispatched on the document: `gesture` and `swipe` custom
events. -/
inductive GEvent
  | gesture (g : String)
  | swipe (direction : String)
deriving DecidableEq, Repr

/-- Palm centre: the average of the six palm-base landmarks
(part_004 lines 318-337). -/
def palmCenter (landmarks : Landmarks) : ℚ × ℚ :=
  let palmLandmarks :=
    [WRIST, THUMB_CMC, INDEX_FINGER_MCP, MIDDLE_FINGER_MCP, RING_FINGER_MCP,
      PINKY_MCP]
  ((palmLandmarks.map fun i => (landmarks i).1).sum / palmLandmarks.length,
    (palmLandmarks.map fun i => (landmarks i).2).sum / palmLandmarks.length)

/-- `detectPalmSwipe` (part_004 lines 317-365): returns the updated state and
the dispatched events. -/
def detectPalmSwipe (s : GestureState) (landmarks : Landmarks) (now : ℤ) :
    GestureState × List GEvent :=
  let currentPalmPosition := palmCenter landmarks
  match s.lastPalmPosition with
  | some lp =>
      if now - s.lastSwipeTime > palmSwipeTimeout then
        let deltaX := currentPalmPosition.1 - lp.1
        if |deltaX| > swipeThreshold then
          let swipeDirection := if deltaX > 0 then "right" else "left"
          ({ s with lastSwipeTime := now, lastPalmPosition := none },
            [GEvent.swipe swipeDirection])
        else
          ({ s with lastPalmPosition := some currentPalmPosition }, [])
      else
        ({ s with lastPalmPosition := some currentPalmPosition }, [])
  | none => ({ s with lastPalmPosition := some currentPalmPosition }, [])

/-- The gesture cascade of `detectGesture` (part_004 lines 270-303): yields
the assigned label, the state after the branch's side effects
(`lastPalmPosition` reset / swipe detection), and the events dispatched by
the branch. -/
def classifyStep (f : Fingers) (s : GestureState) (landmarks : Landmarks)
    (now : ℤ) : String × GestureState × List GEvent :=
  if !f.thumb && !f.index && !f.middle && !f.ring && !f.pinky then
    ("fist", { s with lastPalmPosition := none }, [])
  else if f.thumb && f.index && f.middle && f.ring && f.pinky then
    let r := detectPalmSwipe s landmarks now
    ("open_palm", r.1, r.2)
  else if f.thumb && !f.index && !f.middle && !f.ring && !f.pinky then
    ("thumbs_up", { s with lastPalmPosition := none }, [])
  else if !f.thumb && f.index && f.middle && !f.ring && !f.pinky then
    ("victory", { s with lastPalmPosition := none }, [])
  else if !f.thumb && f.index && !f.middle && !f.ring && !f.pinky then
    ("point", { s with lastPalmPosition := none }, [])
  else
    ("none", { s with lastPalmPosition := none }, [])

/-- `detectGesture` (part_004 lines 252-314): rate-gated by
`GESTURE_DETECTION_INTERVAL`; classifies, then dispatches a `gesture` event
and updates `previousGesture` / `lastGestureTime` only when the label
changed. -/
def detectGesture (s : GestureState) (landmarks : Landmarks) (now : ℤ) :
    GestureState × List GEvent :=
  if now - s.lastGestureTime < GESTURE_DETECTION_INTERVAL then (s, [])
  else
    let r := classifyStep (fingerStates landmarks) s landmarks now
    let gesture := r.1
    let s2 := { r.2.1 with currentGesture := gesture }
    if gesture ≠ s2.previousGesture then
      ({ s2 with previousGesture := gesture, lastGestureTime := now },
        r.2.2 ++ [GEvent.gesture gesture])
    else
      (s2, r.2.2)

/-- One detection tick of `detectHands` (part_004 lines 179-209): with a
detected hand it runs `detectGesture`; with no hand it only sets
`currentGesture = 'none'`. -/
def detectTick (s : GestureState) (hand : Option Landmarks) (now : ℤ) :
    GestureState × List GEvent :=
  match hand with
  | some landmarks => detectGesture s landmarks now
  | none => ({ s with currentGesture := "none" }, [])

/-- Keep only the `gesture` events of a dispatch list. -/
def gestureEvents (evs : List GEvent) : List GEvent :=
  evs.filter fun e =>
    match e with
    | GEvent.gesture _ => true
    | GEvent.swipe _ => false

/-! ## Carousel and scene-level collapse effects (part_005)

`SceneState` models the rotation scalars the collapse / carousel code
touches: the store's `carouselRotation`, `photoGroup.rotation.y`,
`particleSystem.rotation.y`, `ornamentGroup.rotation.y`, the common photo
scale and the camera position. -/

def PHOTO_COUNT : ℕ := 24

structure SceneState where
  phase : Phase
  carouselRotation : ℝ
  photoRotY : ℝ
  particleRotY : ℝ
  ornamentRotY : ℝ
  photoScale : ℝ
  cameraPos : Vec3

/-- `rotateCarousel` (part_005 lines 1349-1369), with its tween run to
completion: no-op outside `nebula`; otherwise the new target angle is
`carouselRotation + direction * (2π / PHOTO_COUNT)`, and at `onComplete`
both `photoGroup.rotation.y` and the stored `carouselRotation` hold it. -/
noncomputable def rotateCarousel (s : SceneState) (direction : ℤ) : SceneState :=
  if s.phase = Phase.nebula then
    let newRotation :=
      s.carouselRotation + (direction : ℝ) * (2 * Real.pi / (PHOTO_COUNT : ℝ))
    { s with carouselRotation := newRotation, photoRotY := newRotation }
  else s

/-- Scene-level effect of `triggerCollapsing` (part_005 lines 1255-1347) with
all its tweens run to completion: guarded by `phase === 'nebula'`; fades the
photos out (scale 0), returns the camera to `(0, 2, 8)`, and tweens
`particleSystem.rotation.y` and `ornamentGroup.rotation.y` to 0.  Neither
`photoGroup.rotation.y` nor the store's `carouselRotation` is written. -/
def triggerCollapsingScene (s : SceneState) : SceneState :=
  if s.phase = Phase.nebula then
    { s with
      phase := Phase.collapsing
      photoScale := 0
      cameraPos := ⟨0, 2, 8⟩
      particleRotY := 0
      ornamentRotY := 0 }
  else s

/-! ## Theorems -/

/-- Auxiliary: distance of a point to itself is zero. -/
theorem dist3_self (p : Vec3) : dist3 p p = 0 := by
  unfold dist3
  simp

/-- Auxiliary: the concrete distance from `(3,4,0)` to the origin is `5`. -/
theorem dist3_345 : dist3 ⟨3, 4, 0⟩ ⟨0, 0, 0⟩ = 5 := by
  unfold dist3
  norm_num
  rw [show (25 : ℝ) = 5 ^ 2 by norm_num, Real.sqrt_sq (by norm_num)]

/-- Auxiliary: the concrete distance from `(1,0,0)` to the origin is `1`. -/
theorem dist3_100 : dist3 ⟨1, 0, 0⟩ ⟨0, 0, 0⟩ = 1 := by
  unfold dist3
  norm_num

/-- C2: at distance `≥ maxDistance` the ripple force is the zero vector;
below `maxDistance` it is componentwise
`(p - c) * ((maxDistance - dist) * strength)` (linear falloff), and for a
nonnegative strength the result points away from the interaction point
(its inner product with `p - c` is nonnegative: a push, never
attraction). -/
theorem calculateRippleForce_spec (p c : Vec3) (m s : ℝ) :
    (m ≤ dist3 p c → calculateRippleForce p c m s = ⟨0, 0, 0⟩) ∧
    (dist3 p c < m →
      calculateRippleForce p c m s =
        ⟨(p.x - c.x) * ((m - dist3 p c) * s),
          (p.y - c.y) * ((m - dist3 p c) * s),
          (p.z - c.z) * ((m - dist3 p c) * s)⟩) ∧
    (0 ≤ s → 0 ≤ dot3 (calculateRippleForce p c m s) (sub3 p c)) := by
  refine ⟨?_, ?_, ?_⟩
  · intro h
    unfold calculateRippleForce
    rw [if_neg (not_lt.mpr h)]
  · intro h
    unfold calculateRippleForce
    rw [if_pos h]
  · intro hs
    unfold calculateRippleForce
    by_cases h : dist3 p c < m
    · rw [if_pos h]
      have hkey :
          dot3
            ⟨(p.x - c.x) * ((m - dist3 p c) * s),
              (p.y - c.y) * ((m - dist3 p c) * s),
              (p.z - c.z) * ((m - dist3 p c) * s)⟩ (sub3 p c) =
            ((m - dist3 p c) * s) *
              ((p.x - c.x) ^ 2 + (p.y - c.y) ^ 2 + (p.z - c.z) ^ 2) := by
        unfold dot3 sub3
        ring
      rw [hkey]
      have hms : 0 ≤ (m - dist3 p c) * s :=
        mul_nonneg (by linarith) hs
      positivity
    · rw [if_neg h]
      unfold dot3 sub3
      norm_num

/-- C2 counterexample: the push-direction clause fails when quantified over
every strength: at point `(1,0,0)`, interaction point the origin,
maxDistance 2 and strength −1, the returned force has strictly negative
inner product with `p − c` — attraction, not a push. -/
theorem ripple_negative_strength_attracts :
    dot3 (calculateRippleForce ⟨1, 0, 0⟩ ⟨0, 0, 0⟩ 2 (-1))
        (sub3 ⟨1, 0, 0⟩ ⟨0, 0, 0⟩) < 0 := by
  unfold calculateRippleForce
  rw [dist3_100, if_pos (by norm_num : (1 : ℝ) < 2)]
  unfold dot3 sub3
  norm_num

/-- C2 witness: a point at distance 5 ≥ 2 from the interaction point gets the
zero vector. -/
theorem calculateRippleForce_spec_witness :
    calculateRippleForce ⟨3, 4, 0⟩ ⟨0, 0, 0⟩ 2 1 = ⟨0, 0, 0⟩ :=
  (calculateRippleForce_spec ⟨3, 4, 0⟩ ⟨0, 0, 0⟩ 2 1).1
    (by rw [dist3_345]; norm_num)

/-- C9 counterexample: with the point exactly at the interaction point the
returned vector has squared magnitude 0, strictly smaller than at distance 1
(< maxDistance 2) — so the magnitude at distance 0 is not maximal over
distances below `maxDistance`. -/
theorem ripple_center_not_maximal :
    dist3 ⟨1, 0, 0⟩ ⟨0, 0, 0⟩ < 2 ∧
      sqMag (calculateRippleForce ⟨0, 0, 0⟩ ⟨0, 0, 0⟩ 2 1) <
        sqMag (calculateRippleForce ⟨1, 0, 0⟩ ⟨0, 0, 0⟩ 2 1) := by
  constructor
  · rw [dist3_100]
    norm_num
  · unfold calculateRippleForce
    rw [dist3_self, dist3_100, if_pos (by norm_num : (0 : ℝ) < 2),
      if_pos (by norm_num : (1 : ℝ) < 2)]
    unfold sqMag dot3
    norm_num

/-- C9 amended: with the point exactly at the interaction point
(distance 0) `calculateRippleForce` returns exactly the zero vector — every
component is the finite real 0 (no NaN), so its magnitude is 0, the minimum
rather than the maximum over distances below `maxDistance`. -/
theorem ripple_at_center_zero (p : Vec3) (m s : ℝ) :
    calculateRippleForce p p m s = ⟨0, 0, 0⟩ := by
  unfold calculateRippleForce
  rw [dist3_self]
  by_cases hm : (0 : ℝ) < m
  · rw [if_pos hm]
    simp
  · rw [if_neg hm]

/-- C3: running Blooming to completion and then Collapsing to completion
returns every particle coordinate exactly to its origin, hence within any
positive epsilon of it — the interpolation is reversible. -/
theorem fullCycle_roundTrip (exploded : ℚ) (p : Particle) (eps : ℚ)
    (heps : 0 < eps) :
    |(fullCycle exploded p).current - p.origin| < eps := by
  have hzero : (fullCycle exploded p).current - p.origin = 0 := by
    unfold fullCycle collapseStep bloomStep
    ring
  rw [hzero, abs_zero]
  exact heps

/-- C3 witness: a concrete particle with origin 3 and exploded target 5 comes
back to within 1 of its origin after the full cycle. -/
theorem fullCycle_roundTrip_witness :
    |(fullCycle 5 ⟨3, 3⟩).current - (3 : ℚ)| < 1 :=
  fullCycle_roundTrip 5 ⟨3, 3⟩ 1 (by norm_num)

/-- Auxiliary: the only well-formed phase states are the four canonical
ones. -/
theorem wfState_cases (s : PhaseState) (h : wfState s = true) :
    s = ⟨Phase.tree, []⟩ ∨ s = ⟨Phase.nebula, []⟩ ∨
      s = ⟨Phase.blooming, [TimeoutKind.bloomDone]⟩ ∨
      s = ⟨Phase.collapsing, [TimeoutKind.collapseDone]⟩ := by
  obtain ⟨p, pend⟩ := s
  unfold wfState at h
  cases p <;>
    rcases pend with _ | ⟨t, _ | ⟨t2, rest⟩⟩ <;>
      first
        | (cases t <;> simp_all)
        | simp_all

/-- C1: the phase only moves along the cycle
Tree→Blooming→Nebula→Collapsing→Tree: `triggerBlooming` changes the phase
only from `tree` (to `blooming`), `triggerCollapsing` only from `nebula`
(to `collapsing`); while `blooming` or `collapsing` both triggers are
no-ops; the scheduled timeout moves `blooming` to `nebula` and `collapsing`
to `tree`; every step from a well-formed state stays well-formed and follows
an allowed edge; and from `tree`, triggering blooming twice and then firing
timeouts yields exactly one blooming→nebula transition. -/
theorem phase_cycle_invariant :
    (∀ s : PhaseState,
      (triggerBlooming s).phase =
        if s.phase = Phase.tree then Phase.blooming else s.phase) ∧
    (∀ s : PhaseState,
      (triggerCollapsing s).phase =
        if s.phase = Phase.nebula then Phase.collapsing else s.phase) ∧
    (∀ s : PhaseState,
      s.phase = Phase.blooming ∨ s.phase = Phase.collapsing →
        triggerBlooming s = s ∧ triggerCollapsing s = s) ∧
    (∀ s : PhaseState, wfState s = true → s.phase = Phase.blooming →
      (fireTimeout s).phase = Phase.nebula) ∧
    (∀ s : PhaseState, wfState s = true → s.phase = Phase.collapsing →
      (fireTimeout s).phase = Phase.tree) ∧
    (∀ (s : PhaseState) (e : PhaseEv), wfState s = true →
      wfState (phaseStep s e) = true ∧
        allowedEdge s.phase (phaseStep s e).phase = true) ∧
    countBloomToNebula
      (phaseTrace ⟨Phase.tree, []⟩
        [PhaseEv.bloomTrig, PhaseEv.bloomTrig, PhaseEv.timeoutFire,
          PhaseEv.timeoutFire]) = 1 := by
  refine ⟨?_, ?_, ?_, ?_, ?_, ?_, ?_⟩
  · intro s
    by_cases hp : s.phase = Phase.tree <;> simp [triggerBlooming, hp]
  · intro s
    by_cases hp : s.phase = Phase.nebula <;> simp [triggerCollapsing, hp]
  · intro s h
    rcases h with h | h <;>
      simp [triggerBlooming, triggerCollapsing, h]
  · intro s hwf hp
    rcases wfState_cases s hwf with h | h | h | h <;> subst h <;>
      first
        | decide
        | simp_all
  · intro s hwf hp
    rcases wfState_cases s hwf with h | h | h | h <;> subst h <;>
      first
        | decide
        | simp_all
  · intro s e hwf
    rcases wfState_cases s hwf with h | h | h | h <;> subst h <;> cases e <;> decide
  · decide

/-- C1 witness: from the well-formed `tree` state, a blooming trigger yields
a well-formed state along an allowed edge. -/
theorem phase_cycle_invariant_witness :
    wfState (phaseStep ⟨Phase.tree, []⟩ PhaseEv.bloomTrig) = true ∧
      allowedEdge Phase.tree
        (phaseStep ⟨Phase.tree, []⟩ PhaseEv.bloomTrig).phase = true :=
  phase_cycle_invariant.2.2.2.2.2.1 ⟨Phase.tree, []⟩ PhaseEv.bloomTrig rfl

/-- Claim-side (spec-worded) gesture table: all closed → fist; all open →
open_palm; thumb only → thumbs_up; index+middle only → victory; index only →
point; anything else → none. -/
def specGestureTable : Bool → Bool → Bool → Bool → Bool → String
  | false, false, false, false, false => "fist"
  | true, true, true, true, true => "open_palm"
  | true, false, false, false, false => "thumbs_up"
  | false, true, true, false, false => "victory"
  | false, true, false, false, false => "point"
  | _, _, _, _, _ => "none"

/-- Claim-side thumb test: the thumb counts as open iff its tip is beyond its
base on the horizontal axis. -/
def specThumbOpen (landmarks : Landmarks) : Bool :=
  decide ((landmarks THUMB_TIP).1 > (landmarks THUMB_CMC).1)

/-- Claim-side non-thumb test: a finger counts as open iff its tip is above
its base joint on the vertical axis (canvas y grows downward, so above means
a smaller y). -/
def specFingerOpenVert (landmarks : Landmarks) (base tip : ℕ) : Bool :=
  decide ((landmarks tip).2 < (landmarks base).2)

/-- C4: the label `detectGesture` classifies is exactly the spec's fixed
table applied to the five per-finger open flags, with the thumb tested on
the horizontal axis against its base and the other fingers tested on the
vertical axis against their base joint. -/
theorem detectGesture_label_table (l : Landmarks) :
    classifyGesture l =
      specGestureTable (specThumbOpen l)
        (specFingerOpenVert l INDEX_FINGER_MCP INDEX_FINGER_TIP)
        (specFingerOpenVert l MIDDLE_FINGER_MCP MIDDLE_FINGER_TIP)
        (specFingerOpenVert l RING_FINGER_MCP RING_FINGER_TIP)
        (specFingerOpenVert l PINKY_MCP PINKY_TIP) := by
  unfold classifyGesture
  have hfs : fingerStates l =
      ⟨specThumbOpen l,
        specFingerOpenVert l INDEX_FINGER_MCP INDEX_FINGER_TIP,
        specFingerOpenVert l MIDDLE_FINGER_MCP MIDDLE_FINGER_TIP,
        specFingerOpenVert l RING_FINGER_MCP RING_FINGER_TIP,
        specFingerOpenVert l PINKY_MCP PINKY_TIP⟩ := rfl
  rw [hfs]
  generalize specThumbOpen l = t
  generalize specFingerOpenVert l INDEX_FINGER_MCP INDEX_FINGER_TIP = i
  generalize specFingerOpenVert l MIDDLE_FINGER_MCP MIDDLE_FINGER_TIP = m
  generalize specFingerOpenVert l RING_FINGER_MCP RING_FINGER_TIP = r
  generalize specFingerOpenVert l PINKY_MCP PINKY_TIP = pk
  cases t <;> cases i <;> cases m <;> cases r <;> cases pk <;> rfl

/-- Auxiliary: palm-swipe detection never touches `previousGesture`. -/
theorem detectPalmSwipe_previousGesture (s : GestureState) (l : Landmarks)
    (now : ℤ) :
    (detectPalmSwipe s l now).1.previousGesture = s.previousGesture := by
  unfold detectPalmSwipe
  cases h : s.lastPalmPosition
  · simp only [h]
  · simp only [h]
    split
    · split <;> rfl
    · rfl

/-- Auxiliary: palm-swipe detection dispatches only `swipe` events. -/
theorem gestureEvents_detectPalmSwipe (s : GestureState) (l : Landmarks)
    (now : ℤ) :
    gestureEvents (detectPalmSwipe s l now).2 = [] := by
  unfold detectPalmSwipe
  cases h : s.lastPalmPosition
  · simp only [h]
    rfl
  · simp only [h]
    split
    · split <;> rfl
    · rfl

/-- Auxiliary: the gesture cascade assigns exactly the label of
`gestureFromFingers`. -/
theorem classifyStep_label (f : Fingers) (s : GestureState) (l : Landmarks)
    (now : ℤ) :
    (classifyStep f s l now).1 = gestureFromFingers f := by
  obtain ⟨t, i, m, r, pk⟩ := f
  cases t <;> cases i <;> cases m <;> cases r <;> cases pk <;> rfl

/-- Auxiliary: the gesture cascade never touches `previousGesture`. -/
theorem classifyStep_previousGesture (f : Fingers) (s : GestureState)
    (l : Landmarks) (now : ℤ) :
    (classifyStep f s l now).2.1.previousGesture = s.previousGesture := by
  obtain ⟨t, i, m, r, pk⟩ := f
  cases t <;> cases i <;> cases m <;> cases r <;> cases pk <;>
    first
      | rfl
      | exact detectPalmSwipe_previousGesture s l now

/-- Auxiliary: the gesture cascade dispatches only `swipe` events. -/
theorem gestureEvents_classifyStep (f : Fingers) (s : GestureState)
    (l : Landmarks) (now : ℤ) :
    gestureEvents (classifyStep f s l now).2.2 = [] := by
  obtain ⟨t, i, m, r, pk⟩ := f
  cases t <;> cases i <;> cases m <;> cases r <;> cases pk <;>
    first
      | rfl
      | exact gestureEvents_detectPalmSwipe s l now

/-- Auxiliary: `gestureEvents` distributes over append. -/
theorem gestureEvents_append (a b : List GEvent) :
    gestureEvents (a ++ b) = gestureEvents a ++ gestureEvents b := by
  unfold gestureEvents
  exact List.filter_append a b

/-- C5 counterexample: after a tick that classifies `fist`, a no-hand tick
assigns the label `none` — different from the previous tick's label — yet
dispatches no event at all, and `previousGesture` is not updated. -/
theorem none_tick_dispatches_nothing :
    (detectTick initialGestureState (some fun _ => ((0 : ℚ), (0 : ℚ)))
        1000).1.currentGesture = "fist" ∧
    (detectTick initialGestureState (some fun _ => ((0 : ℚ), (0 : ℚ)))
        1000).1.previousGesture = "fist" ∧
    (detectTick
        (detectTick initialGestureState (some fun _ => ((0 : ℚ), (0 : ℚ)))
          1000).1 none 2000).1.currentGesture = "none" ∧
    (detectTick
        (detectTick initialGestureState (some fun _ => ((0 : ℚ), (0 : ℚ)))
          1000).1 none 2000).1.previousGesture = "fist" ∧
    (detectTick
        (detectTick initialGestureState (some fun _ => ((0 : ℚ), (0 : ℚ)))
          1000).1 none 2000).2 = [] := by
  refine ⟨rfl, rfl, rfl, rfl, rfl⟩

/-- C5 amended: on a no-hand tick the label is set to `none` but no event is
dispatched and `previousGesture` is untouched; on a hand tick that passes the
detection-interval gate, a gesture event is dispatched exactly once iff the
classified label differs from the stored previous label, and
`previousGesture` is updated exactly when the event is dispatched. -/
theorem detectTick_edge_triggered :
    (∀ (s : GestureState) (now : ℤ),
      detectTick s none now = ({ s with currentGesture := "none" }, [])) ∧
    (∀ (s : GestureState) (l : Landmarks) (now : ℤ),
      ¬now - s.lastGestureTime < GESTURE_DETECTION_INTERVAL →
        gestureEvents (detectTick s (some l) now).2 =
          (if classifyGesture l ≠ s.previousGesture
            then [GEvent.gesture (classifyGesture l)] else []) ∧
        (detectTick s (some l) now).1.previousGesture =
          (if classifyGesture l ≠ s.previousGesture
            then classifyGesture l else s.previousGesture) ∧
        (detectTick s (some l) now).1.currentGesture = classifyGesture l) := by
  constructor
  · intro s now
    rfl
  · intro s l now hgate
    show
      gestureEvents (detectGesture s l now).2 = _ ∧
        (detectGesture s l now).1.previousGesture = _ ∧
        (detectGesture s l now).1.currentGesture = _
    unfold detectGesture
    rw [if_neg hgate]
    have hcg : classifyGesture l = gestureFromFingers (fingerStates l) := rfl
    rw [hcg]
    have hlab := classifyStep_label (fingerStates l) s l now
    have hprev := classifyStep_previousGesture (fingerStates l) s l now
    have hsw := gestureEvents_classifyStep (fingerStates l) s l now
    by_cases hch :
        (classifyStep (fingerStates l) s l now).1 ≠
          (classifyStep (fingerStates l) s l now).2.1.previousGesture
    · rw [if_pos hch]
      rw [hlab, hprev] at hch
      refine ⟨?_, ?_, ?_⟩
      · rw [gestureEvents_append, hsw, if_pos hch]
        simp [gestureEvents, hlab]
      · rw [if_pos hch]
        exact hlab
      · exact hlab
    · rw [if_neg hch]
      rw [hlab, hprev] at hch
      refine ⟨?_, ?_, ?_⟩
      · rw [hsw, if_neg hch]
      · rw [if_neg hch]
        exact hprev
      · exact hlab

/-- C5 witness: from the initial state, a tick at time 1000 with a fist hand
passes the gate and dispatches exactly one gesture event. -/
theorem detectTick_edge_triggered_witness :
    gestureEvents
        (detectTick initialGestureState (some fun _ => ((0 : ℚ), (0 : ℚ)))
          1000).2 = [GEvent.gesture "fist"] := by
  have h :=
    (detectTick_edge_triggered.2 initialGestureState
      (fun _ => ((0 : ℚ), (0 : ℚ))) 1000 (by decide)).1
  rw [h]
  rfl

/-- C10 counterexample: on a no-hand tick the stored palm-centroid position
is NOT cleared — from a state holding `some (1, 2)` it is still `some (1, 2)`
afterwards, even though the label is set to `none`. -/
theorem no_hand_keeps_palm_position :
    (detectTick
        { currentGesture := "open_palm", previousGesture := "open_palm",
          lastGestureTime := 0, lastPalmPosition := some (1, 2),
          lastSwipeTime := 0 } none 1000).1.lastPalmPosition = some (1, 2) ∧
    (detectTick
        { currentGesture := "open_palm", previousGesture := "open_palm",
          lastGestureTime := 0, lastPalmPosition := some (1, 2),
          lastSwipeTime := 0 } none 1000).1.currentGesture = "none" := by
  exact ⟨rfl, rfl⟩

/-- C10 amended: a no-hand tick sets the current label to `none` but leaves
the swipe-tracking state (`lastPalmPosition`, `lastSwipeTime`) and
`previousGesture` untouched; it dispatches nothing.  The palm position is
instead cleared by the non-open-palm branches of `detectGesture` and by
`stopCamera`. -/
theorem no_hand_tick_state (s : GestureState) (now : ℤ) :
    (detectTick s none now).1.currentGesture = "none" ∧
    (detectTick s none now).1.lastPalmPosition = s.lastPalmPosition ∧
    (detectTick s none now).1.lastSwipeTime = s.lastSwipeTime ∧
    (detectTick s none now).1.previousGesture = s.previousGesture ∧
    (detectTick s none now).2 = [] := by
  exact ⟨rfl, rfl, rfl, rfl, rfl⟩

/-- C6: with a previously recorded palm centroid and the refractory timeout
elapsed, a super-threshold horizontal centroid displacement dispatches
exactly one swipe event whose direction matches the sign of the displacement
and clears the tracked centroid; a sub-threshold motion dispatches none and
records the new centroid; and no branch of the gesture cascade other than
`open_palm` ever dispatches a swipe. -/
theorem detectPalmSwipe_spec (s : GestureState) (lp : ℚ × ℚ) (l : Landmarks)
    (now : ℤ) (hlp : s.lastPalmPosition = some lp)
    (ht : now - s.lastSwipeTime > palmSwipeTimeout) :
    (|(palmCenter l).1 - lp.1| > swipeThreshold →
      detectPalmSwipe s l now =
        ({ s with lastSwipeTime := now, lastPalmPosition := none },
          [GEvent.swipe
            (if (palmCenter l).1 - lp.1 > 0 then "right" else "left")])) ∧
    (¬|(palmCenter l).1 - lp.1| > swipeThreshold →
      detectPalmSwipe s l now =
        ({ s with lastPalmPosition := some (palmCenter l) }, [])) ∧
    (∀ f : Fingers,
      ¬(f.thumb && f.index && f.middle && f.ring && f.pinky) = true →
        (classifyStep f s l now).2.2 = []) := by
  refine ⟨?_, ?_, ?_⟩
  · intro hbig
    unfold detectPalmSwipe
    rw [hlp]
    simp only [Option.some.injEq]
    rw [if_pos ht, if_pos hbig]
  · intro hsmall
    unfold detectPalmSwipe
    rw [hlp]
    simp only [Option.some.injEq]
    rw [if_pos ht, if_neg hsmall]
  · intro f hopen
    obtain ⟨t, i, m, r, pk⟩ := f
    cases t <;> cases i <;> cases m <;> cases r <;> cases pk <;>
      first
        | rfl
        | simp_all

/-- A concrete classifier state holding a recorded palm centroid at the
origin. -/
def swipeDemoState : GestureState :=
  { currentGesture := "open_palm", previousGesture := "open_palm",
    lastGestureTime := 0, lastPalmPosition := some (0, 0), lastSwipeTime := 0 }

/-- A landmark sample whose every landmark sits at `(x, 0)`, so the palm
centroid is `(x, 0)`. -/
def openPalmAt (x : ℚ) : Landmarks := fun _ => (x, 0)

/-- C6 witness: a 100-unit rightward centroid displacement (threshold 50)
after the 300 ms refractory window dispatches exactly one `swipe right`. -/
theorem detectPalmSwipe_spec_witness :
    detectPalmSwipe swipeDemoState (openPalmAt 100) 1000 =
      ({ swipeDemoState with lastSwipeTime := 1000, lastPalmPosition := none },
        [GEvent.swipe "right"]) := by
  have hpc : palmCenter (openPalmAt 100) = (100, 0) := by
    unfold palmCenter openPalmAt
    norm_num
  have h :=
    (detectPalmSwipe_spec swipeDemoState (0, 0) (openPalmAt 100) 1000 rfl
      (by decide)).1 (by rw [hpc]; norm_num [swipeThreshold])
  rw [h, hpc]
  norm_num

/-- Auxiliary: a completed `rotate(1)` in Nebula, written as a record
update. -/
theorem rotateCarousel_one (t : SceneState) (ht : t.phase = Phase.nebula) :
    rotateCarousel t 1 =
      { t with
        carouselRotation :=
          t.carouselRotation + 2 * Real.pi / (PHOTO_COUNT : ℝ)
        photoRotY := t.carouselRotation + 2 * Real.pi / (PHOTO_COUNT : ℝ) } := by
  unfold rotateCarousel
  rw [if_pos ht]
  norm_num

/-- Auxiliary: iterating `rotateCarousel · 1` in Nebula advances both the
stored scalar and the photo-ring rotation by `n · (2π / PHOTO_COUNT)`. -/
theorem rotateCarousel_iterate (n : ℕ) (s : SceneState)
    (hph : s.phase = Phase.nebula) (hsync : s.photoRotY = s.carouselRotation) :
    ((fun t => rotateCarousel t 1)^[n] s).phase = Phase.nebula ∧
    ((fun t => rotateCarousel t 1)^[n] s).carouselRotation =
      s.carouselRotation + n * (2 * Real.pi / (PHOTO_COUNT : ℝ)) ∧
    ((fun t => rotateCarousel t 1)^[n] s).photoRotY =
      s.carouselRotation + n * (2 * Real.pi / (PHOTO_COUNT : ℝ)) := by
  induction n with
  | zero =>
      refine ⟨hph, by simp, by simp [hsync]⟩
  | succ n ih =>
      obtain ⟨ih1, ih2, ih3⟩ := ih
      rw [Function.iterate_succ_apply']
      show (rotateCarousel ((fun t => rotateCarousel t 1)^[n] s) 1).phase =
          Phase.nebula ∧ _ ∧ _
      rw [rotateCarousel_one _ ih1]
      refine ⟨ih1, ?_, ?_⟩
      · show ((fun t => rotateCarousel t 1)^[n] s).carouselRotation +
            2 * Real.pi / (PHOTO_COUNT : ℝ) = _
        rw [ih2]
        push_cast
        ring
      · show ((fun t => rotateCarousel t 1)^[n] s).carouselRotation +
            2 * Real.pi / (PHOTO_COUNT : ℝ) = _
        rw [ih2]
        push_cast
        ring

/-- C7: `rotateCarousel` is a no-op outside Nebula; in Nebula it moves the
stored angle and the photo-ring rotation to
`carouselRotation + direction · (2π / PHOTO_COUNT)`; and 24 successive
`rotate(1)` calls, each tween completed, return the ring rotation to its
original angle modulo 2π. -/
theorem rotateCarousel_spec :
    (∀ (s : SceneState) (d : ℤ), s.phase ≠ Phase.nebula →
      rotateCarousel s d = s) ∧
    (∀ (s : SceneState) (d : ℤ), s.phase = Phase.nebula →
      (rotateCarousel s d).carouselRotation =
        s.carouselRotation + (d : ℝ) * (2 * Real.pi / (PHOTO_COUNT : ℝ)) ∧
      (rotateCarousel s d).photoRotY =
        s.carouselRotation + (d : ℝ) * (2 * Real.pi / (PHOTO_COUNT : ℝ))) ∧
    (∀ s : SceneState, s.phase = Phase.nebula →
      s.photoRotY = s.carouselRotation →
      ((((fun t => rotateCarousel t 1)^[PHOTO_COUNT] s).photoRotY : ℝ) :
          Real.Angle) = ((s.photoRotY : ℝ) : Real.Angle)) := by
  refine ⟨?_, ?_, ?_⟩
  · intro s d h
    unfold rotateCarousel
    rw [if_neg h]
  · intro s d h
    unfold rotateCarousel
    rw [if_pos h]
    exact ⟨rfl, rfl⟩
  · intro s hph hsync
    have h := (rotateCarousel_iterate PHOTO_COUNT s hph hsync).2.2
    rw [h, hsync]
    have hcount : ((PHOTO_COUNT : ℕ) : ℝ) * (2 * Real.pi / (PHOTO_COUNT : ℝ)) =
        2 * Real.pi := by
      rw [show ((PHOTO_COUNT : ℕ) : ℝ) = (24 : ℝ) by norm_num [PHOTO_COUNT]]
      ring_nf
    rw [hcount, Real.Angle.coe_add, Real.Angle.coe_two_pi]
    simp

/-- A scene resting in the Tree phase with a nonzero rotation history. -/
def sceneDemoTree : SceneState :=
  { phase := Phase.tree, carouselRotation := 1, photoRotY := 2,
    particleRotY := 3, ornamentRotY := 4, photoScale := 5,
    cameraPos := ⟨0, 0, 0⟩ }

/-- A scene in the Nebula phase with all rotations at 0. -/
def sceneDemoNebula : SceneState :=
  { phase := Phase.nebula, carouselRotation := 0, photoRotY := 0,
    particleRotY := 0, ornamentRotY := 0, photoScale := 1,
    cameraPos := ⟨0, 0, 0⟩ }

/-- C7 witness: in Tree the rotate call leaves the scene unchanged, and from
Nebula 24 completed `rotate(1)` calls return the ring angle to its original
value modulo 2π. -/
theorem rotateCarousel_spec_witness :
    rotateCarousel sceneDemoTree 1 = sceneDemoTree ∧
      ((((fun t => rotateCarousel t 1)^[PHOTO_COUNT]
            sceneDemoNebula).photoRotY : ℝ) : Real.Angle) =
        ((sceneDemoNebula.photoRotY : ℝ) : Real.Angle) :=
  ⟨rotateCarousel_spec.1 sceneDemoTree 1 (by decide),
    rotateCarousel_spec.2.2 sceneDemoNebula rfl rfl⟩

/-- A Nebula scene whose whole composition has been rotated by 1 radian. -/
def nebulaSpun : SceneState :=
  { phase := Phase.nebula, carouselRotation := 1, photoRotY := 1,
    particleRotY := 1, ornamentRotY := 1, photoScale := 1,
    cameraPos := ⟨0, 0, 0⟩ }

/-- C8 counterexample: entering Collapsing from a Nebula scene rotated by 1
radian leaves the photo-ring rotation and the stored `carouselRotation`
scalar at 1, not 0 — only the particle-system and ornament-group rotations
are reset. -/
theorem collapse_keeps_carousel_rotation :
    (triggerCollapsingScene nebulaSpun).carouselRotation = 1 ∧
    (triggerCollapsingScene nebulaSpun).photoRotY = 1 ∧
    (triggerCollapsingScene nebulaSpun).particleRotY = 0 ∧
    (triggerCollapsingScene nebulaSpun).ornamentRotY = 0 ∧
    (triggerCollapsingScene nebulaSpun).carouselRotation ≠ 0 := by
  refine ⟨rfl, rfl, rfl, rfl, ?_⟩
  show (1 : ℝ) ≠ 0
  norm_num

/-- C8 amended: entering Collapsing from Nebula starts the reverse
interpolation phase, fades the photo frames out, returns the camera to
`(0, 2, 8)`, and tweens the particle-system and ornament-group rotations to
0; the photo-ring rotation and the stored `carouselRotation` scalar are left
unchanged (they are not reset to 0). -/
theorem triggerCollapsingScene_spec (s : SceneState)
    (h : s.phase = Phase.nebula) :
    (triggerCollapsingScene s).phase = Phase.collapsing ∧
    (triggerCollapsingScene s).particleRotY = 0 ∧
    (triggerCollapsingScene s).ornamentRotY = 0 ∧
    (triggerCollapsingScene s).photoScale = 0 ∧
    (triggerCollapsingScene s).cameraPos = ⟨0, 2, 8⟩ ∧
    (triggerCollapsingScene s).photoRotY = s.photoRotY ∧
    (triggerCollapsingScene s).carouselRotation = s.carouselRotation := by
  unfold triggerCollapsingScene
  rw [if_pos h]
  exact ⟨rfl, rfl, rfl, rfl, rfl, rfl, rfl⟩

/-- C8 witness: the amended description evaluated on the concrete rotated
Nebula scene. -/
theorem triggerCollapsingScene_spec_witness :
    (triggerCollapsingScene nebulaSpun).particleRotY = 0 ∧
    (triggerCollapsingScene nebulaSpun).phase = Phase.collapsing :=
  ⟨(triggerCollapsingScene_spec nebulaSpun rfl).2.1,
    (triggerCollapsingScene_spec nebulaSpun rfl).1⟩

end Xmas
